import Mathlib

/-!
Verification of the fragment classification engine of chimerascan
(src/chimerascan/pipeline/find_discordant_reads.py).

The Python source is shallowly embedded: an alignment record becomes a
structure, the mutable per-record tag list becomes explicit state passing,
pysam file handles become lists of records, and the assert statements
become an error monad.  Helpers that live in excluded library modules
(chimerascan.lib.sam, chimerascan.lib.chimera,
chimerascan.lib.transcriptome_to_genome, chimerascan.lib.base) are
modelled from the spec and marked as such in their doc comments.
-/

namespace Chimerascan

/-- DiscordantTags values attached by the classifier (spec section 3;
values live in the excluded module chimerascan.lib.chimera, a closed
enumeration whose five members are named in the spec). -/
inductive DiscordantTag
  | CONCORDANT_TX
  | DISCORDANT_STRAND_TX
  | CONCORDANT_GENE
  | DISCORDANT_STRAND_GENE
  | DISCORDANT_GENE
deriving DecidableEq, Repr

/-- Orientation values ORIENTATION_5P / ORIENTATION_3P
(chimerascan.lib.chimera, named in the spec). -/
inductive Orientation
  | ORIENTATION_5P
  | ORIENTATION_3P
deriving DecidableEq, Repr

/-- One entry of the mutable tag list of an alignment record.  The source
stores (name, value) pairs; the two tag names written by this file
(DISCORDANT_TAG_NAME and ORIENTATION_TAG) are represented by dedicated
constructors, any other pre-existing tag by the constructor other. -/
inductive TagEntry
  | discordant (t : DiscordantTag)
  | orientation (o : Orientation)
  | other (key : Int) (val : Int)
deriving DecidableEq, Repr

/-- AlignmentRecord: one candidate placement of one mate (spec section 3).
Fields mirror the pysam attributes the source reads: tid, pos, aend,
is_reverse, is_unmapped, the alignment score consumed by the external
best-scoring-pair selector, and the mutable tag list. -/
structure Read where
  tid : Nat
  pos : Nat
  aend : Nat
  is_reverse : Bool
  is_unmapped : Bool
  score : Int
  tags : List TagEntry
deriving DecidableEq, Repr

/-- The two runtime errors the embedded code can raise: the assert
statements at lines 28 and 46, and the dynamic type error raised by the
swapped-argument calls of write_pe_reads (lines 270 and 274). -/
inductive PyErr
  | assertionError
  | typeError
deriving DecidableEq, Repr

abbrev ReadPair := Read × Read

/-- A reference-id keyed bucket map (collections.defaultdict in the
source): each key holds the (mate1, mate2) alignment lists filed under
it.  Python dict iteration order is unspecified; the model fixes first
insertion order, and every theorem below is independent of this order. -/
abbrev RefDict := List (Nat × (List Read × List Read))

/-- A genome-coordinate transform: (tid, position) to
(genome tid, genome strand, genome position).  Models the data carried
by tid_tx_genome_map together with transcript_to_genome_pos from the
excluded module chimerascan.lib.transcriptome_to_genome. -/
abbrev GenomeProj := Nat → Nat → Nat × Bool × Nat

/-- Modelled from the spec: the library type is consumed by this file
only through LibraryTypes.same_strand (line 120) and get_orientation
(line 62), both defined in excluded modules; the spec describes them as
the same-strand expectation and the strand-plus-library-type derivation
of the 5-prime/3-prime orientation.  The model carries the two consumed
functions directly. -/
structure LibraryType where
  same_strand : Bool
  get_orientation : Read → Orientation

/-! ## Tag-list helpers (model of pysam r.tags / r.opt) -/

/-- First discordant-tag entry of a tag list; models r.opt applied to
DISCORDANT_TAG_NAME, which returns the first matching tag value. -/
def first_discordant : List TagEntry → Option DiscordantTag
  | [] => none
  | TagEntry.discordant t :: _ => some t
  | TagEntry.orientation _ :: rest => first_discordant rest
  | TagEntry.other _ _ :: rest => first_discordant rest

/-- First orientation-tag entry of a tag list; models r.opt applied to
ORIENTATION_TAG. -/
def first_orientation : List TagEntry → Option Orientation
  | [] => none
  | TagEntry.orientation o :: _ => some o
  | TagEntry.discordant _ :: rest => first_orientation rest
  | TagEntry.other _ _ :: rest => first_orientation rest

def read_opt_discordant (r : Read) : Option DiscordantTag :=
  first_discordant r.tags

def read_opt_orientation (r : Read) : Option Orientation :=
  first_orientation r.tags

/-- The record carries no classification tags yet (the state of records
arriving from the upstream aligner). -/
def clean_tags (r : Read) : Prop :=
  first_discordant r.tags = none ∧ first_orientation r.tags = none

instance (r : Read) : Decidable (clean_tags r) := by
  unfold clean_tags; infer_instance

/-- Model of the in-place mutation r.tags = r.tags + [...] used at
lines 69-70 and (via pair_reads) at lines 139/144/146 etc. -/
def add_tags (r : Read) (ts : List TagEntry) : Read :=
  { r with tags := r.tags ++ ts }

/-- Negating the strand bit of a mate (vocabulary of the strand-flip
property in spec section 8). -/
def negate_strand (r : Read) : Read :=
  { r with is_reverse := !r.is_reverse }

/-! ## Helpers modelled from the spec (excluded module chimerascan.lib.sam) -/

/-- Modelled from the spec: copy_read produces an independent copy of an
alignment record so that tagging a pair does not mutate the shared
original; in the pure model a copy is the value itself. -/
def copy_read (r : Read) : Read := r

/-- Modelled from the spec: pair_reads marks two records as mates and
writes the given tags into both records (spec section 4.3: every
returned pair has its tag written into both records before being handed
to the caller).  Only the tag writes are observable in the model. -/
def pair_reads (r1 r2 : Read) (tags : List TagEntry) : ReadPair :=
  (add_tags r1 tags, add_tags r2 tags)

/-- Pair score used by the external selector: sum of the two mate
alignment scores (spec section 6). -/
def pair_score (p : ReadPair) : Int :=
  p.1.score + p.2.score

/-- Modelled from the spec: select_best_scoring_pairs (excluded module
chimerascan.lib.sam) returns the subset of candidate pairs achieving the
maximum pair score, ties retained, order preserved. -/
def select_best_scoring_pairs (pairs : List ReadPair) : List ReadPair :=
  match pairs with
  | [] => []
  | p :: rest =>
    let best := rest.foldl (fun m q => max m (pair_score q)) (pair_score p)
    (p :: rest).filter (fun q => pair_score q == best)

/-! ## count_transcriptome_multimaps (source lines 22-33) -/

/-- The canonical locus key inserted at line 32: (genome tid of the
projected start, projected start position, projected position of
aend-1).  The source keeps left_tid from the start projection and the
two genome positions. -/
def locus_key (proj : GenomeProj) (r : Read) : Nat × Nat × Nat :=
  let left := proj r.tid r.pos
  let right := proj r.tid (r.aend - 1)
  (left.1, left.2.2, right.2.2)

/-- Python set insertion: hits.add(key). -/
def insert_hit (hits : List (Nat × Nat × Nat)) (k : Nat × Nat × Nat) :
    List (Nat × Nat × Nat) :=
  if k ∈ hits then hits else k :: hits

/-- Loop of count_transcriptome_multimaps, lines 24-33: an unmapped
record returns 0 at once; a mapped record must satisfy the assert at
line 28 (its tid is a key of tid_tx_genome_map, modelled by dom) and
contributes its locus key to the hit set. -/
def count_hits (proj : GenomeProj) (dom : List Nat) :
    List Read → List (Nat × Nat × Nat) → Except PyErr Nat
  | [], hits => .ok hits.length
  | r :: rest, hits =>
    if r.is_unmapped then .ok 0
    else if r.tid ∈ dom then
      count_hits proj dom rest (insert_hit hits (locus_key proj r))
    else .error PyErr.assertionError

/-- count_transcriptome_multimaps (lines 22-33).  The bamfh parameter of
the source is unused in its body and is omitted. -/
def count_transcriptome_multimaps (proj : GenomeProj) (dom : List Nat)
    (reads : List Read) : Except PyErr Nat :=
  count_hits proj dom reads []

/-! ## map_reads_to_references (source lines 35-54) -/

/-- Filing one record into a defaultdict bucket: pairs[readnum].append(r). -/
def add_to_bucket (d : RefDict) (key : Nat) (readnum : Nat) (r : Read) :
    RefDict :=
  match d with
  | [] => [(key, if readnum = 0 then ([r], []) else ([], [r]))]
  | (k, bucket) :: rest =>
    if k = key then
      (k, if readnum = 0 then (bucket.1 ++ [r], bucket.2)
          else (bucket.1, bucket.2 ++ [r])) :: rest
    else (k, bucket) :: add_to_bucket rest key readnum r

/-- Inner loop of map_reads_to_references for one mate (lines 42-53):
unmapped records are skipped; a mapped record must satisfy the assert at
line 46 (its tid is a key of tid_tx_map) and is filed into the cluster
bucket of its transcript and into its reference bucket. -/
def bin_reads (tid_tx_map : List (Nat × Nat)) (readnum : Nat) :
    List Read → RefDict × RefDict → Except PyErr (RefDict × RefDict)
  | [], dicts => .ok dicts
  | r :: rest, (refdict, clusterdict) =>
    if r.is_unmapped then bin_reads tid_tx_map readnum rest (refdict, clusterdict)
    else
      match tid_tx_map.lookup r.tid with
      | none => .error PyErr.assertionError
      | some cluster_id =>
        bin_reads tid_tx_map readnum rest
          (add_to_bucket refdict r.tid readnum r,
           add_to_bucket clusterdict cluster_id readnum r)

/-- map_reads_to_references (lines 35-54): bins both mates and returns
(refdict, clusterdict).  tid_tx_map sends a reference tid to the
cluster_id of its transcript. -/
def map_reads_to_references (pe_reads : List Read × List Read)
    (tid_tx_map : List (Nat × Nat)) : Except PyErr (RefDict × RefDict) :=
  match bin_reads tid_tx_map 0 pe_reads.1 ([], []) with
  | .error e => .error e
  | .ok dicts => bin_reads tid_tx_map 1 pe_reads.2 dicts

/-! ## classify_unpaired_reads and find_discordant_pairs (lines 56-94) -/

/-- The mutation applied to every record by classify_unpaired_reads
(lines 69-70): append the DISCORDANT_GENE tag and the orientation tag. -/
def tag_read (library_type : LibraryType) (r : Read) : Read :=
  add_tags r [TagEntry.discordant DiscordantTag.DISCORDANT_GENE,
              TagEntry.orientation (library_type.get_orientation r)]

/-- classify_unpaired_reads (lines 56-71).  The source mutates each
record in place and returns (gene_hits_5p, gene_hits_3p); the model
additionally returns the mutated mate list as the first component,
because the caller keeps aliases to these records (the hit lists hold
the same, now tagged, objects). -/
def classify_unpaired_reads (reads : List Read) (library_type : LibraryType) :
    List Read × List Read × List Read :=
  match reads with
  | [] => ([], [], [])
  | r :: rest =>
    let orientation := library_type.get_orientation r
    let rt := tag_read library_type r
    let acc := classify_unpaired_reads rest library_type
    if orientation = Orientation.ORIENTATION_5P then
      (rt :: acc.1, rt :: acc.2.1, acc.2.2)
    else
      (rt :: acc.1, acc.2.1, rt :: acc.2.2)

/-- One combo of the nested loops at lines 87-93: all (r1, r2) pairs of
two hit lists, each pair built from copies and paired with no extra
tags. -/
def cross_pair : List Read → List Read → List ReadPair
  | [], _ => []
  | r1 :: rest, l2 =>
    l2.map (fun r2 => pair_reads (copy_read r1) (copy_read r2) []) ++
      cross_pair rest l2

/-- find_discordant_pairs (lines 73-94): classify both mates into
5-prime/3-prime hit lists (tagging every record in place), then pair the
opposite-orientation combos (r1 5p x r2 3p) and (r1 3p x r2 5p).
Returns the gene pairs together with the mutated mate lists. -/
def find_discordant_pairs (pe_reads : List Read × List Read)
    (library_type : LibraryType) : List ReadPair × (List Read × List Read) :=
  let c1 := classify_unpaired_reads pe_reads.1 library_type
  let c2 := classify_unpaired_reads pe_reads.2 library_type
  let gene_pairs := cross_pair c1.2.1 c2.2.2 ++ cross_pair c1.2.2 c2.2.1
  (gene_pairs, (c1.1, c2.1))

/-! ## classify_read_pairs (lines 96-205) -/

/-- The per-candidate tag of the same-reference stage (lines 131-145):
strand compatibility against the library expectation selects
CONCORDANT_TX, otherwise DISCORDANT_STRAND_TX. -/
def tx_pair_tag (same_strand : Bool) (r1 r2 : Read) : DiscordantTag :=
  if same_strand == (r1.is_reverse == r2.is_reverse) then
    DiscordantTag.CONCORDANT_TX
  else DiscordantTag.DISCORDANT_STRAND_TX

/-- Inner loop body shared by the same-reference block (lines 128-146)
and the same-cluster block (lines 155-169): pair r1 with every r2,
partitioning into the concordant list (tag tc) and the discordant list
(tag td) by strand compatibility. -/
def pairs_with_all (same_strand : Bool) (tc td : DiscordantTag) (r1 : Read) :
    List Read → List ReadPair × List ReadPair
  | [] => ([], [])
  | r2 :: rest =>
    let strand_match := same_strand == (r1.is_reverse == r2.is_reverse)
    let tags := [TagEntry.discordant (if strand_match then tc else td)]
    let p := pair_reads (copy_read r1) (copy_read r2) tags
    let acc := pairs_with_all same_strand tc td r1 rest
    if strand_match then (p :: acc.1, acc.2) else (acc.1, p :: acc.2)

/-- The full cross product of one bucket (both nested loops). -/
def bucket_pairs (same_strand : Bool) (tc td : DiscordantTag) :
    List Read → List Read → List ReadPair × List ReadPair
  | [], _ => ([], [])
  | r1 :: rest, l2 =>
    let here := pairs_with_all same_strand tc td r1 l2
    let acc := bucket_pairs same_strand tc td rest l2
    (here.1 ++ acc.1, here.2 ++ acc.2)

/-- Same-reference pairing stage (lines 122-146): walk the reference
buckets, skip any bucket missing a mate, and accumulate
(found_pair, concordant_tx_pairs, discordant_tx_pairs). -/
def ref_stage (same_strand : Bool) : RefDict → Bool × List ReadPair × List ReadPair
  | [] => (false, [], [])
  | (_, bucket) :: rest =>
    let acc := ref_stage same_strand rest
    if bucket.1.length = 0 ∨ bucket.2.length = 0 then acc
    else
      let here := bucket_pairs same_strand DiscordantTag.CONCORDANT_TX
        DiscordantTag.DISCORDANT_STRAND_TX bucket.1 bucket.2
      (true, here.1 ++ acc.2.1, here.2 ++ acc.2.2)

/-- Same-cluster pairing stage (lines 150-169): identical cross-product
logic over the cluster buckets, producing CONCORDANT_GENE /
DISCORDANT_STRAND_GENE pairs. -/
def cluster_stage (same_strand : Bool) : RefDict → List ReadPair × List ReadPair
  | [] => ([], [])
  | (_, bucket) :: rest =>
    let acc := cluster_stage same_strand rest
    if bucket.1.length = 0 ∨ bucket.2.length = 0 then acc
    else
      let here := bucket_pairs same_strand DiscordantTag.CONCORDANT_GENE
        DiscordantTag.DISCORDANT_STRAND_GENE bucket.1 bucket.2
      (here.1 ++ acc.1, here.2 ++ acc.2)

/-- The four candidate pair lists produced by states 1 and 2, in the
order (concordant_tx, concordant_cluster, discordant_tx,
discordant_cluster).  The cluster stage runs only when the reference
stage found no pairing (found_pair guard, line 149); when it is skipped
its two lists stay empty, exactly as in the source. -/
def produced_pair_lists (library_type : LibraryType) (rd cd : RefDict) :
    List ReadPair × List ReadPair × List ReadPair × List ReadPair :=
  let rs := ref_stage library_type.same_strand rd
  let cs := if rs.1 then ([], []) else cluster_stage library_type.same_strand cd
  (rs.2.1, cs.1, rs.2.2, cs.2)

/-- Body of classify_read_pairs after the reference/cluster dictionaries
are built (lines 112-205): run the reference stage, run the cluster
stage only when the reference stage found no pairing (line 149), select
among the four pair lists in priority order (lines 170-188), fall back
to the cross-gene stage (lines 194-199), and finally return the mutated
mate lists as the residual (line 205). -/
def classify_pairs_core (library_type : LibraryType) (rd cd : RefDict)
    (pe_reads : List Read × List Read) :
    List ReadPair × (List Read × List Read) :=
  let ps := produced_pair_lists library_type rd cd
  let concordant_tx_pairs := ps.1
  let concordant_cluster_pairs := ps.2.1
  let discordant_tx_pairs := ps.2.2.1
  let discordant_cluster_pairs := ps.2.2.2
  let gene_pairs :=
    if concordant_tx_pairs.length > 0 then concordant_tx_pairs
    else if concordant_cluster_pairs.length > 0 then concordant_cluster_pairs
    else []
  if gene_pairs.length > 0 then (gene_pairs, ([], []))
  else
    let gene_pairs2 :=
      if discordant_tx_pairs.length > 0 then discordant_tx_pairs
      else if discordant_cluster_pairs.length > 0 then discordant_cluster_pairs
      else []
    if gene_pairs2.length > 0 then (gene_pairs2, ([], []))
    else
      let fd := find_discordant_pairs pe_reads library_type
      if fd.1.length > 0 then (select_best_scoring_pairs fd.1, ([], []))
      else ([], fd.2)

/-- classify_read_pairs (lines 96-205).  max_isize is a parameter of the
source function but is not read in its body.  The empty residual the
source returns on every pair-found path is the empty mate-list pair. -/
def classify_read_pairs (pe_reads : List Read × List Read) (max_isize : Nat)
    (library_type : LibraryType) (tid_tx_map : List (Nat × Nat)) :
    Except PyErr (List ReadPair × (List Read × List Read)) :=
  match map_reads_to_references pe_reads tid_tx_map with
  | .error e => .error e
  | .ok (refdict, clusterdict) =>
    .ok (classify_pairs_core library_type refdict clusterdict pe_reads)

/-! ## Output routing and the dispatcher (lines 207-290) -/

/-- An output channel is the list of records written to it so far. -/
structure Channels where
  paired : List Read
  discordant : List Read
  unpaired : List Read
  multimap : List Read
deriving DecidableEq, Repr

/-- write_pe_reads as defined at lines 207-210: parameters in the order
(pe_reads, bamfh); every record of every mate list is appended to the
channel. -/
def write_pe_reads (pe_reads : List (List Read)) (bamfh : List Read) :
    List Read :=
  pe_reads.foldl (fun fh reads => fh ++ reads) bamfh

/-- Model of the calls at lines 270 and 274, which pass the arguments in
the order (file handle, pe_reads), swapped with respect to the
definition of write_pe_reads at line 207 (parameters (pe_reads, bamfh);
compare the call at line 284, which uses the defined order).  Evaluating
the body then iterates the write-mode output file handle and invokes
.write on a Python list; either step raises a runtime error before any
record is written to the channel. -/
def write_pe_reads_swapped_call (bamfh : List Read)
    (pe_reads : List (List Read)) : Except PyErr (List Read) :=
  .error PyErr.typeError

/-- write_pairs (lines 212-225): a pair goes to the discordant channel
exactly when both records carry DISCORDANT_GENE, otherwise to the paired
channel.  The source reads the tag with r.opt, modelled by the first
matching tag entry. -/
def write_pairs (pairs : List ReadPair) (chans : Channels) : Channels :=
  pairs.foldl (fun ch p =>
    if read_opt_discordant p.1 ≠ some DiscordantTag.DISCORDANT_GENE ∨
        read_opt_discordant p.2 ≠ some DiscordantTag.DISCORDANT_GENE then
      { ch with paired := ch.paired ++ [p.1, p.2] }
    else
      { ch with discordant := ch.discordant ++ [p.1, p.2] }) chans

/-- The three-way branch of the dispatcher loop (lines 267-276), applied
to the two per-mate locus counts. -/
inductive Route
  | unpaired_branch
  | multimap_branch
  | classify_branch
deriving DecidableEq, Repr

def dispatch_route (h1 h2 : Nat) (max_multihits : Nat) : Route :=
  if min h1 h2 = 0 then Route.unpaired_branch
  else if max h1 h2 > max_multihits then Route.multimap_branch
  else Route.classify_branch

/-- The branch the dispatcher takes for one fragment: compute the two
mate locus counts (lines 262-266) and apply the three-way branch. -/
def fragment_route (proj : GenomeProj) (dom : List Nat) (max_multihits : Nat)
    (pe_reads : List Read × List Read) : Except PyErr Route :=
  match count_transcriptome_multimaps proj dom pe_reads.1,
        count_transcriptome_multimaps proj dom pe_reads.2 with
  | .error e, _ => .error e
  | _, .error e => .error e
  | .ok h1, .ok h2 => .ok (dispatch_route h1 h2 max_multihits)

/-- One iteration of the dispatcher loop of find_discordant_fragments
(lines 261-284) over one fragment, threading the four output channels.
The unpaired and multimap branches reproduce the swapped-argument calls
of write_pe_reads at lines 270 and 274; the residual-unpaired write at
line 284 uses the defined argument order. -/
def process_fragment (proj : GenomeProj) (dom : List Nat)
    (tid_tx_map : List (Nat × Nat)) (library_type : LibraryType)
    (max_isize max_multihits : Nat) (chans : Channels)
    (pe_reads : List Read × List Read) : Except PyErr Channels :=
  match count_transcriptome_multimaps proj dom pe_reads.1,
        count_transcriptome_multimaps proj dom pe_reads.2 with
  | .error e, _ => .error e
  | _, .error e => .error e
  | .ok h1, .ok h2 =>
    if min h1 h2 = 0 then
      match write_pe_reads_swapped_call chans.unpaired [pe_reads.1, pe_reads.2] with
      | .error e => .error e
      | .ok u => .ok { chans with unpaired := u }
    else if max h1 h2 > max_multihits then
      match write_pe_reads_swapped_call chans.multimap [pe_reads.1, pe_reads.2] with
      | .error e => .error e
      | .ok m => .ok { chans with multimap := m }
    else
      match classify_read_pairs pe_reads max_isize library_type tid_tx_map with
      | .error e => .error e
      | .ok (gene_pairs, unpaired_reads) =>
        if gene_pairs.length > 0 then .ok (write_pairs gene_pairs chans)
        else .ok { chans with
          unpaired := write_pe_reads [unpaired_reads.1, unpaired_reads.2] chans.unpaired }

/-! ## Basic lemmas about tags and the spec-modelled helpers -/

theorem add_tags_nil (r : Read) : add_tags r [] = r := by
  cases r; simp [add_tags]

theorem pair_reads_nil (a b : Read) : pair_reads a b [] = (a, b) := by
  simp [pair_reads, add_tags_nil]

theorem first_discordant_append (l1 l2 : List TagEntry)
    (h : first_discordant l1 = none) :
    first_discordant (l1 ++ l2) = first_discordant l2 := by
  induction l1 with
  | nil => rfl
  | cons t rest ih =>
    cases t with
    | discordant td => simp [first_discordant] at h
    | orientation o =>
      simp only [List.cons_append, first_discordant] at h ⊢
      exact ih h
    | other k v =>
      simp only [List.cons_append, first_discordant] at h ⊢
      exact ih h

theorem first_orientation_append (l1 l2 : List TagEntry)
    (h : first_orientation l1 = none) :
    first_orientation (l1 ++ l2) = first_orientation l2 := by
  induction l1 with
  | nil => rfl
  | cons t rest ih =>
    cases t with
    | orientation o => simp [first_orientation] at h
    | discordant td =>
      simp only [List.cons_append, first_orientation] at h ⊢
      exact ih h
    | other k v =>
      simp only [List.cons_append, first_orientation] at h ⊢
      exact ih h

theorem read_opt_discordant_tag_read (lib : LibraryType) (r : Read)
    (h : clean_tags r) :
    read_opt_discordant (tag_read lib r) = some DiscordantTag.DISCORDANT_GENE := by
  show first_discordant (r.tags ++ _) = _
  rw [first_discordant_append _ _ h.1]
  rfl

theorem read_opt_orientation_tag_read (lib : LibraryType) (r : Read)
    (h : clean_tags r) :
    read_opt_orientation (tag_read lib r) = some (lib.get_orientation r) := by
  show first_orientation (r.tags ++ _) = _
  rw [first_orientation_append _ _ h.2]
  rfl

theorem filter_ne_nil_of_mem {α : Type} (l : List α) (p : α → Bool) (a : α)
    (ha : a ∈ l) (hp : p a = true) : l.filter p ≠ [] := by
  intro h
  have hmem := List.mem_filter.mpr ⟨ha, hp⟩
  rw [h] at hmem
  exact absurd hmem (List.not_mem_nil a)

theorem select_best_scoring_pairs_subset (pairs : List ReadPair) (p : ReadPair)
    (h : p ∈ select_best_scoring_pairs pairs) : p ∈ pairs := by
  match pairs with
  | [] => exact absurd h (List.not_mem_nil p)
  | q :: rest =>
    simp only [select_best_scoring_pairs] at h
    exact List.mem_of_mem_filter h

theorem foldl_max_attained (l : List Int) : ∀ a : Int,
    l.foldl max a = a ∨ l.foldl max a ∈ l := by
  induction l with
  | nil => exact fun a => Or.inl rfl
  | cons b t ih =>
    intro a
    have hfold : (b :: t).foldl max a = t.foldl max (max a b) := rfl
    rcases ih (max a b) with h | h
    · rcases max_choice a b with hm | hm
      · exact Or.inl (by rw [hfold, h, hm])
      · exact Or.inr (by rw [hfold, h, hm]; exact List.mem_cons_self b t)
    · exact Or.inr (by rw [hfold]; exact List.mem_cons_of_mem b h)

theorem select_best_scoring_pairs_ne_nil (pairs : List ReadPair)
    (h : pairs ≠ []) : select_best_scoring_pairs pairs ≠ [] := by
  match pairs with
  | [] => exact absurd rfl h
  | p :: rest =>
    have hatt : rest.foldl (fun m q => max m (pair_score q)) (pair_score p)
          = pair_score p ∨
        rest.foldl (fun m q => max m (pair_score q)) (pair_score p)
          ∈ rest.map pair_score := by
      rw [← List.foldl_map]
      exact foldl_max_attained (rest.map pair_score) (pair_score p)
    have hwit : ∃ q ∈ p :: rest,
        pair_score q
          = rest.foldl (fun m q => max m (pair_score q)) (pair_score p) := by
      rcases hatt with hb | hb
      · exact ⟨p, List.mem_cons_self p rest, hb.symm⟩
      · rcases List.mem_map.mp hb with ⟨q, hq, hqs⟩
        exact ⟨q, List.mem_cons_of_mem p hq, hqs⟩
    rcases hwit with ⟨q, hq, hqs⟩
    intro hnil
    have hfil : List.filter
        (fun x => pair_score x == rest.foldl (fun m q => max m (pair_score q)) (pair_score p))
        (p :: rest) = [] := hnil
    have hmem : q ∈ List.filter
        (fun x => pair_score x == rest.foldl (fun m q => max m (pair_score q)) (pair_score p))
        (p :: rest) :=
      List.mem_filter.mpr ⟨hq, by simp [hqs]⟩
    rw [hfil] at hmem
    exact absurd hmem (List.not_mem_nil q)

/-! ## Lemmas about count_transcriptome_multimaps -/

theorem insert_hit_nodup (hits : List (Nat × Nat × Nat)) (k : Nat × Nat × Nat)
    (h : hits.Nodup) : (insert_hit hits k).Nodup := by
  unfold insert_hit
  by_cases hm : k ∈ hits
  · rwa [if_pos hm]
  · rw [if_neg hm]
    exact List.nodup_cons.mpr ⟨hm, h⟩

theorem insert_hit_toFinset (hits : List (Nat × Nat × Nat)) (k : Nat × Nat × Nat) :
    (insert_hit hits k).toFinset = insert k hits.toFinset := by
  unfold insert_hit
  by_cases hm : k ∈ hits
  · rw [if_pos hm]
    exact (Finset.insert_eq_self.mpr (List.mem_toFinset.mpr hm)).symm
  · rw [if_neg hm, List.toFinset_cons]

theorem count_hits_card (proj : GenomeProj) (dom : List Nat) :
    ∀ (reads : List Read) (hits : List (Nat × Nat × Nat)), hits.Nodup →
      (∀ r ∈ reads, r.is_unmapped = false) → (∀ r ∈ reads, r.tid ∈ dom) →
      count_hits proj dom reads hits =
        .ok (hits.toFinset ∪ (reads.map (locus_key proj)).toFinset).card := by
  intro reads
  induction reads with
  | nil =>
    intro hits hnd _ _
    simp [count_hits, List.toFinset_card_of_nodup hnd]
  | cons r rest ih =>
    intro hits hnd hm hd
    have hru : r.is_unmapped = false := hm r (List.mem_cons_self r rest)
    have hrd : r.tid ∈ dom := hd r (List.mem_cons_self r rest)
    have hstep : count_hits proj dom (r :: rest) hits
        = count_hits proj dom rest (insert_hit hits (locus_key proj r)) := by
      simp [count_hits, hru, hrd]
    rw [hstep, ih (insert_hit hits (locus_key proj r))
      (insert_hit_nodup _ _ hnd)
      (fun x hx => hm x (List.mem_cons_of_mem r hx))
      (fun x hx => hd x (List.mem_cons_of_mem r hx))]
    congr 2
    rw [insert_hit_toFinset, List.map_cons, List.toFinset_cons,
      Finset.insert_union, Finset.union_insert]

theorem count_hits_err (proj : GenomeProj) (dom : List Nat) :
    ∀ (reads : List Read) (hits : List (Nat × Nat × Nat)),
      (∀ r ∈ reads, r.is_unmapped = false) → (∃ r ∈ reads, r.tid ∉ dom) →
      count_hits proj dom reads hits = .error PyErr.assertionError := by
  intro reads
  induction reads with
  | nil =>
    intro hits _ hex
    obtain ⟨r, hr, _⟩ := hex
    exact absurd hr (List.not_mem_nil r)
  | cons a rest ih =>
    intro hits hm hex
    have hau : a.is_unmapped = false := hm a (List.mem_cons_self a rest)
    by_cases had : a.tid ∈ dom
    · have hstep : count_hits proj dom (a :: rest) hits
          = count_hits proj dom rest (insert_hit hits (locus_key proj a)) := by
        simp [count_hits, hau, had]
      obtain ⟨r, hr, hrd⟩ := hex
      have hrrest : r ∈ rest := by
        rcases List.mem_cons.mp hr with rfl | h2
        · exact absurd had hrd
        · exact h2
      rw [hstep]
      exact ih _ (fun x hx => hm x (List.mem_cons_of_mem a hx)) ⟨r, hrrest, hrd⟩
    · simp [count_hits, hau, had]

theorem count_hits_ok (proj : GenomeProj) (dom : List Nat) :
    ∀ (reads : List Read) (hits : List (Nat × Nat × Nat)),
      (∀ r ∈ reads, r.is_unmapped = false → r.tid ∈ dom) →
      ∃ n, count_hits proj dom reads hits = .ok n := by
  intro reads
  induction reads with
  | nil => exact fun hits _ => ⟨hits.length, rfl⟩
  | cons a rest ih =>
    intro hits hm
    cases hau : a.is_unmapped with
    | true => exact ⟨0, by simp [count_hits, hau]⟩
    | false =>
      have had : a.tid ∈ dom := hm a (List.mem_cons_self a rest) hau
      obtain ⟨n, hn⟩ := ih (insert_hit hits (locus_key proj a))
        (fun x hx => hm x (List.mem_cons_of_mem a hx))
      exact ⟨n, by rw [show count_hits proj dom (a :: rest) hits
        = count_hits proj dom rest (insert_hit hits (locus_key proj a)) from by
          simp [count_hits, hau, had]]; exact hn⟩

theorem count_hits_unmapped_zero (proj : GenomeProj) (dom : List Nat) :
    ∀ (reads : List Read) (hits : List (Nat × Nat × Nat)),
      (∀ r ∈ reads, r.is_unmapped = false → r.tid ∈ dom) →
      (∃ r ∈ reads, r.is_unmapped = true) →
      count_hits proj dom reads hits = .ok 0 := by
  intro reads
  induction reads with
  | nil =>
    intro hits _ hex
    obtain ⟨r, hr, _⟩ := hex
    exact absurd hr (List.not_mem_nil r)
  | cons a rest ih =>
    intro hits hm hex
    cases hau : a.is_unmapped with
    | true => simp [count_hits, hau]
    | false =>
      have had : a.tid ∈ dom := hm a (List.mem_cons_self a rest) hau
      obtain ⟨r, hr, hru⟩ := hex
      have hrrest : r ∈ rest := by
        rcases List.mem_cons.mp hr with rfl | h2
        · rw [hau] at hru; exact absurd hru (by simp)
        · exact h2
      rw [show count_hits proj dom (a :: rest) hits
        = count_hits proj dom rest (insert_hit hits (locus_key proj a)) from by
          simp [count_hits, hau, had]]
      exact ih _ (fun x hx => hm x (List.mem_cons_of_mem a hx)) ⟨r, hrrest, hru⟩

/-! ## Lemmas about map_reads_to_references -/

theorem bin_reads_cases (tid_tx_map : List (Nat × Nat)) (readnum : Nat) :
    ∀ (reads : List Read) (dicts : RefDict × RefDict),
      (∃ d, bin_reads tid_tx_map readnum reads dicts = .ok d) ∨
        bin_reads tid_tx_map readnum reads dicts = .error PyErr.assertionError := by
  intro reads
  induction reads with
  | nil => exact fun dicts => Or.inl ⟨dicts, rfl⟩
  | cons r rest ih =>
    intro dicts
    obtain ⟨rd, cd⟩ := dicts
    cases hu : r.is_unmapped with
    | true => simpa [bin_reads, hu] using ih (rd, cd)
    | false =>
      cases hl : tid_tx_map.lookup r.tid with
      | none => exact Or.inr (by simp [bin_reads, hu, hl])
      | some c => simpa [bin_reads, hu, hl] using ih _

theorem bin_reads_err (tid_tx_map : List (Nat × Nat)) (readnum : Nat) :
    ∀ (reads : List Read) (dicts : RefDict × RefDict),
      (∃ r ∈ reads, r.is_unmapped = false ∧ tid_tx_map.lookup r.tid = none) →
      bin_reads tid_tx_map readnum reads dicts = .error PyErr.assertionError := by
  intro reads
  induction reads with
  | nil =>
    intro dicts hex
    obtain ⟨r, hr, _⟩ := hex
    exact absurd hr (List.not_mem_nil r)
  | cons a rest ih =>
    intro dicts hex
    obtain ⟨rd, cd⟩ := dicts
    obtain ⟨r, hr, hrm, hrl⟩ := hex
    cases hu : a.is_unmapped with
    | true =>
      have hrrest : r ∈ rest := by
        rcases List.mem_cons.mp hr with rfl | h2
        · rw [hu] at hrm; exact absurd hrm (by simp)
        · exact h2
      rw [show bin_reads tid_tx_map readnum (a :: rest) (rd, cd)
        = bin_reads tid_tx_map readnum rest (rd, cd) from by simp [bin_reads, hu]]
      exact ih (rd, cd) ⟨r, hrrest, hrm, hrl⟩
    | false =>
      cases hl : tid_tx_map.lookup a.tid with
      | none => simp [bin_reads, hu, hl]
      | some c =>
        have hrrest : r ∈ rest := by
          rcases List.mem_cons.mp hr with rfl | h2
          · rw [hl] at hrl; exact absurd hrl (by simp)
          · exact h2
        rw [show bin_reads tid_tx_map readnum (a :: rest) (rd, cd)
          = bin_reads tid_tx_map readnum rest
              (add_to_bucket rd a.tid readnum a,
               add_to_bucket cd c readnum a) from by simp [bin_reads, hu, hl]]
        exact ih _ ⟨r, hrrest, hrm, hrl⟩

theorem bin_reads_ok (tid_tx_map : List (Nat × Nat)) (readnum : Nat) :
    ∀ (reads : List Read) (dicts : RefDict × RefDict),
      (∀ r ∈ reads, r.is_unmapped = false → (tid_tx_map.lookup r.tid).isSome = true) →
      ∃ d, bin_reads tid_tx_map readnum reads dicts = .ok d := by
  intro reads
  induction reads with
  | nil => exact fun dicts _ => ⟨dicts, rfl⟩
  | cons a rest ih =>
    intro dicts hm
    obtain ⟨rd, cd⟩ := dicts
    cases hu : a.is_unmapped with
    | true =>
      obtain ⟨d, hd⟩ := ih (rd, cd) (fun x hx => hm x (List.mem_cons_of_mem a hx))
      exact ⟨d, by rw [show bin_reads tid_tx_map readnum (a :: rest) (rd, cd)
        = bin_reads tid_tx_map readnum rest (rd, cd) from by simp [bin_reads, hu]]; exact hd⟩
    | false =>
      have hs := hm a (List.mem_cons_self a rest) hu
      cases hl : tid_tx_map.lookup a.tid with
      | none => rw [hl] at hs; exact absurd hs (by simp)
      | some c =>
        obtain ⟨d, hd⟩ := ih
          (add_to_bucket rd a.tid readnum a, add_to_bucket cd c readnum a)
          (fun x hx => hm x (List.mem_cons_of_mem a hx))
        exact ⟨d, by rw [show bin_reads tid_tx_map readnum (a :: rest) (rd, cd)
          = bin_reads tid_tx_map readnum rest
              (add_to_bucket rd a.tid readnum a,
               add_to_bucket cd c readnum a) from by simp [bin_reads, hu, hl]]; exact hd⟩

theorem map_reads_err (pe : List Read × List Read) (tid_tx_map : List (Nat × Nat))
    (h : ∃ r, (r ∈ pe.1 ∨ r ∈ pe.2) ∧ r.is_unmapped = false ∧
      tid_tx_map.lookup r.tid = none) :
    map_reads_to_references pe tid_tx_map = .error PyErr.assertionError := by
  obtain ⟨r, hloc, hm, hl⟩ := h
  unfold map_reads_to_references
  rcases hloc with h1 | h2
  · rw [bin_reads_err tid_tx_map 0 pe.1 ([], []) ⟨r, h1, hm, hl⟩]
  · rcases bin_reads_cases tid_tx_map 0 pe.1 ([], []) with ⟨d, hd⟩ | herr
    · rw [hd]
      exact bin_reads_err tid_tx_map 1 pe.2 d ⟨r, h2, hm, hl⟩
    · rw [herr]

theorem map_reads_ok (pe : List Read × List Read) (tid_tx_map : List (Nat × Nat))
    (h1 : ∀ r ∈ pe.1, r.is_unmapped = false → (tid_tx_map.lookup r.tid).isSome = true)
    (h2 : ∀ r ∈ pe.2, r.is_unmapped = false → (tid_tx_map.lookup r.tid).isSome = true) :
    ∃ d, map_reads_to_references pe tid_tx_map = .ok d := by
  unfold map_reads_to_references
  obtain ⟨d1, hd1⟩ := bin_reads_ok tid_tx_map 0 pe.1 ([], []) h1
  rw [hd1]
  exact bin_reads_ok tid_tx_map 1 pe.2 d1 h2

/-! ## Lemmas about classify_unpaired_reads and find_discordant_pairs -/

theorem classify_unpaired_reads_fst (lib : LibraryType) :
    ∀ reads : List Read,
      (classify_unpaired_reads reads lib).1 = reads.map (tag_read lib) := by
  intro reads
  induction reads with
  | nil => rfl
  | cons r rest ih =>
    simp only [classify_unpaired_reads]
    by_cases ho : lib.get_orientation r = Orientation.ORIENTATION_5P
    · simp [ho, ih]
    · simp [ho, ih]

theorem classify_unpaired_reads_5p_mem (lib : LibraryType) :
    ∀ (reads : List Read) (x : Read),
      x ∈ (classify_unpaired_reads reads lib).2.1 →
      ∃ r, r ∈ reads ∧ lib.get_orientation r = Orientation.ORIENTATION_5P ∧
        x = tag_read lib r := by
  intro reads
  induction reads with
  | nil => intro x hx; exact absurd hx (List.not_mem_nil x)
  | cons r rest ih =>
    intro x hx
    simp only [classify_unpaired_reads] at hx
    by_cases ho : lib.get_orientation r = Orientation.ORIENTATION_5P
    · rw [if_pos ho] at hx
      rcases List.mem_cons.mp hx with rfl | h2
      · exact ⟨r, List.mem_cons_self r rest, ho, rfl⟩
      · obtain ⟨s, hs, hso, hsx⟩ := ih x h2
        exact ⟨s, List.mem_cons_of_mem r hs, hso, hsx⟩
    · rw [if_neg ho] at hx
      obtain ⟨s, hs, hso, hsx⟩ := ih x hx
      exact ⟨s, List.mem_cons_of_mem r hs, hso, hsx⟩

theorem classify_unpaired_reads_3p_mem (lib : LibraryType) :
    ∀ (reads : List Read) (x : Read),
      x ∈ (classify_unpaired_reads reads lib).2.2 →
      ∃ r, r ∈ reads ∧ lib.get_orientation r = Orientation.ORIENTATION_3P ∧
        x = tag_read lib r := by
  intro reads
  induction reads with
  | nil => intro x hx; exact absurd hx (List.not_mem_nil x)
  | cons r rest ih =>
    intro x hx
    simp only [classify_unpaired_reads] at hx
    by_cases ho : lib.get_orientation r = Orientation.ORIENTATION_5P
    · rw [if_pos ho] at hx
      obtain ⟨s, hs, hso, hsx⟩ := ih x hx
      exact ⟨s, List.mem_cons_of_mem r hs, hso, hsx⟩
    · rw [if_neg ho] at hx
      have ho3 : lib.get_orientation r = Orientation.ORIENTATION_3P := by
        cases h : lib.get_orientation r
        · exact absurd h ho
        · rfl
      rcases List.mem_cons.mp hx with rfl | h2
      · exact ⟨r, List.mem_cons_self r rest, ho3, rfl⟩
      · obtain ⟨s, hs, hso, hsx⟩ := ih x h2
        exact ⟨s, List.mem_cons_of_mem r hs, hso, hsx⟩

theorem cross_pair_mem : ∀ (l1 l2 : List Read) (p : ReadPair),
    p ∈ cross_pair l1 l2 → ∃ a b, a ∈ l1 ∧ b ∈ l2 ∧ p = (a, b) := by
  intro l1
  induction l1 with
  | nil => intro l2 p hp; exact absurd hp (List.not_mem_nil p)
  | cons r1 rest ih =>
    intro l2 p hp
    simp only [cross_pair] at hp
    rcases List.mem_append.mp hp with h | h
    · rcases List.mem_map.mp h with ⟨r2, hr2, hpr⟩
      refine ⟨r1, r2, List.mem_cons_self r1 rest, hr2, ?_⟩
      rw [← hpr, pair_reads_nil]
      rfl
    · obtain ⟨a, b, ha, hb, hab⟩ := ih l2 p h
      exact ⟨a, b, List.mem_cons_of_mem r1 ha, hb, hab⟩

theorem find_discordant_pairs_snd (pe : List Read × List Read)
    (lib : LibraryType) :
    (find_discordant_pairs pe lib).2 =
      (pe.1.map (tag_read lib), pe.2.map (tag_read lib)) := by
  unfold find_discordant_pairs
  simp [classify_unpaired_reads_fst]

/-- Every cross-gene candidate pair consists of a tagged mate1 record and
a tagged mate2 record with opposite orientations. -/
theorem find_discordant_pairs_mem (pe : List Read × List Read)
    (lib : LibraryType) (p : ReadPair)
    (hp : p ∈ (find_discordant_pairs pe lib).1) :
    ∃ r s, r ∈ pe.1 ∧ s ∈ pe.2 ∧ p = (tag_read lib r, tag_read lib s) ∧
      ((lib.get_orientation r = Orientation.ORIENTATION_5P ∧
        lib.get_orientation s = Orientation.ORIENTATION_3P) ∨
       (lib.get_orientation r = Orientation.ORIENTATION_3P ∧
        lib.get_orientation s = Orientation.ORIENTATION_5P)) := by
  unfold find_discordant_pairs at hp
  simp only at hp
  rcases List.mem_append.mp hp with h | h
  · obtain ⟨a, b, ha, hb, hab⟩ := cross_pair_mem _ _ p h
    obtain ⟨r, hr, hro, hra⟩ := classify_unpaired_reads_5p_mem lib pe.1 a ha
    obtain ⟨s, hs, hso, hsb⟩ := classify_unpaired_reads_3p_mem lib pe.2 b hb
    exact ⟨r, s, hr, hs, by rw [hab, hra, hsb], Or.inl ⟨hro, hso⟩⟩
  · obtain ⟨a, b, ha, hb, hab⟩ := cross_pair_mem _ _ p h
    obtain ⟨r, hr, hro, hra⟩ := classify_unpaired_reads_3p_mem lib pe.1 a ha
    obtain ⟨s, hs, hso, hsb⟩ := classify_unpaired_reads_5p_mem lib pe.2 b hb
    exact ⟨r, s, hr, hs, by rw [hab, hra, hsb], Or.inr ⟨hro, hso⟩⟩

/-! ## Lemmas about the reference and cluster stages -/

theorem pairs_with_all_ne_nil (ss : Bool) (tc td : DiscordantTag) (r1 : Read)
    (l2 : List Read) (h : l2 ≠ []) :
    (pairs_with_all ss tc td r1 l2).1 ≠ [] ∨
      (pairs_with_all ss tc td r1 l2).2 ≠ [] := by
  match l2 with
  | [] => exact absurd rfl h
  | r2 :: rest =>
    simp only [pairs_with_all]
    by_cases hsm : (ss == (r1.is_reverse == r2.is_reverse)) = true
    · rw [if_pos hsm]
      exact Or.inl (List.cons_ne_nil _ _)
    · rw [if_neg hsm]
      exact Or.inr (List.cons_ne_nil _ _)

theorem bucket_pairs_ne_nil (ss : Bool) (tc td : DiscordantTag)
    (l1 l2 : List Read) (h1 : l1 ≠ []) (h2 : l2 ≠ []) :
    (bucket_pairs ss tc td l1 l2).1 ≠ [] ∨
      (bucket_pairs ss tc td l1 l2).2 ≠ [] := by
  match l1 with
  | [] => exact absurd rfl h1
  | r1 :: rest =>
    simp only [bucket_pairs]
    rcases pairs_with_all_ne_nil ss tc td r1 l2 h2 with h | h
    · exact Or.inl (fun hc => h (List.append_eq_nil.mp hc).1)
    · exact Or.inr (fun hc => h (List.append_eq_nil.mp hc).1)

theorem ref_stage_found (ss : Bool) :
    ∀ (rd : RefDict) (k : Nat) (l1 l2 : List Read),
      (k, (l1, l2)) ∈ rd → l1 ≠ [] → l2 ≠ [] → (ref_stage ss rd).1 = true := by
  intro rd
  induction rd with
  | nil => intro k l1 l2 hk; exact absurd hk (List.not_mem_nil _)
  | cons b rest ih =>
    intro k l1 l2 hk h1 h2
    obtain ⟨kb, bl1, bl2⟩ := b
    simp only [ref_stage]
    by_cases hg : bl1.length = 0 ∨ bl2.length = 0
    · rw [if_pos hg]
      rcases List.mem_cons.mp hk with heq | hmem
      · simp only [Prod.mk.injEq] at heq
        obtain ⟨-, rfl, rfl⟩ := heq
        rcases hg with hg | hg
        · exact absurd (List.length_eq_zero.mp hg) h1
        · exact absurd (List.length_eq_zero.mp hg) h2
      · exact ih k l1 l2 hmem h1 h2
    · rw [if_neg hg]

theorem ref_stage_pairs_ne (ss : Bool) :
    ∀ rd : RefDict, (ref_stage ss rd).1 = true →
      (ref_stage ss rd).2.1 ≠ [] ∨ (ref_stage ss rd).2.2 ≠ [] := by
  intro rd
  induction rd with
  | nil => intro h; simp [ref_stage] at h
  | cons b rest ih =>
    obtain ⟨kb, bl1, bl2⟩ := b
    intro h
    simp only [ref_stage] at h ⊢
    by_cases hg : bl1.length = 0 ∨ bl2.length = 0
    · rw [if_pos hg] at h ⊢
      exact ih h
    · rw [if_neg hg] at h ⊢
      push_neg at hg
      obtain ⟨hg1, hg2⟩ := hg
      have hb1 : bl1 ≠ [] := fun hc => hg1 (by rw [hc]; rfl)
      have hb2 : bl2 ≠ [] := fun hc => hg2 (by rw [hc]; rfl)
      rcases bucket_pairs_ne_nil ss DiscordantTag.CONCORDANT_TX
        DiscordantTag.DISCORDANT_STRAND_TX bl1 bl2 hb1 hb2 with hb | hb
      · exact Or.inl (fun hc => hb (List.append_eq_nil.mp hc).1)
      · exact Or.inr (fun hc => hb (List.append_eq_nil.mp hc).1)

/-! ## Branch lemmas for classify_pairs_core -/

theorem core_sel_ctx (lib : LibraryType) (rd cd : RefDict)
    (pe : List Read × List Read)
    (h : (produced_pair_lists lib rd cd).1 ≠ []) :
    classify_pairs_core lib rd cd pe =
      ((produced_pair_lists lib rd cd).1, ([], [])) := by
  have hl : 0 < (produced_pair_lists lib rd cd).1.length := List.length_pos.mpr h
  simp only [classify_pairs_core]
  rw [if_pos hl, if_pos hl]

theorem core_sel_ccl (lib : LibraryType) (rd cd : RefDict)
    (pe : List Read × List Read)
    (hctx : (produced_pair_lists lib rd cd).1 = [])
    (h : (produced_pair_lists lib rd cd).2.1 ≠ []) :
    classify_pairs_core lib rd cd pe =
      ((produced_pair_lists lib rd cd).2.1, ([], [])) := by
  have hl : 0 < (produced_pair_lists lib rd cd).2.1.length := List.length_pos.mpr h
  simp only [classify_pairs_core, hctx]
  simp [hl]

theorem core_sel_dtx (lib : LibraryType) (rd cd : RefDict)
    (pe : List Read × List Read)
    (hctx : (produced_pair_lists lib rd cd).1 = [])
    (hccl : (produced_pair_lists lib rd cd).2.1 = [])
    (h : (produced_pair_lists lib rd cd).2.2.1 ≠ []) :
    classify_pairs_core lib rd cd pe =
      ((produced_pair_lists lib rd cd).2.2.1, ([], [])) := by
  have hl : 0 < (produced_pair_lists lib rd cd).2.2.1.length := List.length_pos.mpr h
  simp only [classify_pairs_core, hctx, hccl]
  simp [hl]

theorem core_sel_dcl (lib : LibraryType) (rd cd : RefDict)
    (pe : List Read × List Read)
    (hctx : (produced_pair_lists lib rd cd).1 = [])
    (hccl : (produced_pair_lists lib rd cd).2.1 = [])
    (hdtx : (produced_pair_lists lib rd cd).2.2.1 = [])
    (h : (produced_pair_lists lib rd cd).2.2.2 ≠ []) :
    classify_pairs_core lib rd cd pe =
      ((produced_pair_lists lib rd cd).2.2.2, ([], [])) := by
  have hl : 0 < (produced_pair_lists lib rd cd).2.2.2.length := List.length_pos.mpr h
  simp only [classify_pairs_core, hctx, hccl, hdtx]
  simp [hl]

theorem core_state4_found (lib : LibraryType) (rd cd : RefDict)
    (pe : List Read × List Read)
    (hctx : (produced_pair_lists lib rd cd).1 = [])
    (hccl : (produced_pair_lists lib rd cd).2.1 = [])
    (hdtx : (produced_pair_lists lib rd cd).2.2.1 = [])
    (hdcl : (produced_pair_lists lib rd cd).2.2.2 = [])
    (h : (find_discordant_pairs pe lib).1 ≠ []) :
    classify_pairs_core lib rd cd pe =
      (select_best_scoring_pairs (find_discordant_pairs pe lib).1, ([], [])) := by
  have hl : 0 < (find_discordant_pairs pe lib).1.length := List.length_pos.mpr h
  simp only [classify_pairs_core, hctx, hccl, hdtx, hdcl]
  simp [hl]

theorem core_terminal (lib : LibraryType) (rd cd : RefDict)
    (pe : List Read × List Read)
    (hctx : (produced_pair_lists lib rd cd).1 = [])
    (hccl : (produced_pair_lists lib rd cd).2.1 = [])
    (hdtx : (produced_pair_lists lib rd cd).2.2.1 = [])
    (hdcl : (produced_pair_lists lib rd cd).2.2.2 = [])
    (h : (find_discordant_pairs pe lib).1 = []) :
    classify_pairs_core lib rd cd pe = ([], (find_discordant_pairs pe lib).2) := by
  simp [classify_pairs_core, hctx, hccl, hdtx, hdcl, h]

/-- Exhaustive description of the result of classify_pairs_core: it is
one of the four selected candidate lists, the reduced cross-gene list,
or the terminal empty result with the tagged mate lists as residual. -/
theorem core_cases (lib : LibraryType) (rd cd : RefDict)
    (pe : List Read × List Read) (pairs : List ReadPair)
    (res : List Read × List Read)
    (h : classify_pairs_core lib rd cd pe = (pairs, res)) :
    (pairs ≠ [] ∧ res = ([], [])) ∨
      (pairs = [] ∧
        res = (pe.1.map (tag_read lib), pe.2.map (tag_read lib))) := by
  by_cases hctx : (produced_pair_lists lib rd cd).1 = []
  · by_cases hccl : (produced_pair_lists lib rd cd).2.1 = []
    · by_cases hdtx : (produced_pair_lists lib rd cd).2.2.1 = []
      · by_cases hdcl : (produced_pair_lists lib rd cd).2.2.2 = []
        · by_cases hfd : (find_discordant_pairs pe lib).1 = []
          · rw [core_terminal lib rd cd pe hctx hccl hdtx hdcl hfd] at h
            obtain ⟨rfl, rfl⟩ := Prod.mk.injEq .. ▸ h
            right
            exact ⟨rfl, (find_discordant_pairs_snd pe lib).symm ▸ rfl⟩
          · rw [core_state4_found lib rd cd pe hctx hccl hdtx hdcl hfd] at h
            obtain ⟨rfl, rfl⟩ := Prod.mk.injEq .. ▸ h
            exact Or.inl ⟨select_best_scoring_pairs_ne_nil _ hfd, rfl⟩
        · rw [core_sel_dcl lib rd cd pe hctx hccl hdtx hdcl] at h
          obtain ⟨rfl, rfl⟩ := Prod.mk.injEq .. ▸ h
          exact Or.inl ⟨hdcl, rfl⟩
      · rw [core_sel_dtx lib rd cd pe hctx hccl hdtx] at h
        obtain ⟨rfl, rfl⟩ := Prod.mk.injEq .. ▸ h
        exact Or.inl ⟨hdtx, rfl⟩
    · rw [core_sel_ccl lib rd cd pe hctx hccl] at h
      obtain ⟨rfl, rfl⟩ := Prod.mk.injEq .. ▸ h
      exact Or.inl ⟨hccl, rfl⟩
  · rw [core_sel_ctx lib rd cd pe hctx] at h
    obtain ⟨rfl, rfl⟩ := Prod.mk.injEq .. ▸ h
    exact Or.inl ⟨hctx, rfl⟩

/-! ## Concrete instances used by the closed theorems -/

/-- Modelled from the spec: a concrete library type for the closed
instances below — same-strand pairing expected, orientation derived from
the strand bit (forward mate = 5-prime). -/
def frlib : LibraryType :=
  ⟨true, fun r => if r.is_reverse then Orientation.ORIENTATION_3P
    else Orientation.ORIENTATION_5P⟩

/-- A record with the given coordinates and an empty tag list. -/
def mk_read (tid pos aend : Nat) (rev unm : Bool) (score : Int) : Read :=
  ⟨tid, pos, aend, rev, unm, score, []⟩

/-- The discordant tags carried by the two mates of every returned pair
of a classifier result (none when the call failed). -/
def result_pair_tags
    (e : Except PyErr (List ReadPair × (List Read × List Read))) :
    Option (List (Option DiscordantTag × Option DiscordantTag)) :=
  match e with
  | .ok (ps, _) =>
    some (ps.map fun p => (read_opt_discordant p.1, read_opt_discordant p.2))
  | .error _ => none

def read_c1 : Read := mk_read 1 10 20 false false 0
def proj_c1 : GenomeProj := fun _ pos => (1, false, pos)
def chans0 : Channels := ⟨[], [], [], []⟩

def rA2 : Read := mk_read 5 10 50 false false 0
def rB2 : Read := mk_read 5 60 100 false false 0

def rA3 : Read := mk_read 1 10 50 false false 0
def rB3 : Read := mk_read 2 60 100 false false 0
def rA3w : Read := mk_read 3 10 50 false false 0
def rB3w : Read := mk_read 4 60 100 false false 0
def res3w : List Read × List Read :=
  ([rA3w].map (tag_read frlib), [rB3w].map (tag_read frlib))

def rA4 : Read := mk_read 7 10 50 false false 0
def rB4 : Read := mk_read 7 60 100 false false 0
def rd4 : RefDict := [(7, ([rA4], [rB4]))]
def cd4 : RefDict := [(1, ([rA4], [rB4]))]

def rA7 : Read := mk_read 11 10 50 false false 0
def rB7 : Read := mk_read 12 60 100 true false 0
def rd7 : RefDict := [(11, ([rA7], [])), (12, ([], [rB7]))]
def cd7 : RefDict := [(1, ([rA7], [])), (2, ([], [rB7]))]

def rA8 : Read := mk_read 21 10 50 false false 0
def rB8 : Read := mk_read 22 60 100 false false 0
def c8w_pairs : List ReadPair :=
  [(add_tags rA4 [TagEntry.discordant DiscordantTag.CONCORDANT_TX],
    add_tags rB4 [TagEntry.discordant DiscordantTag.CONCORDANT_TX])]

def projC6 : GenomeProj := fun _ pos => (1, false, 100 + pos)
def readsC6 : List Read :=
  [mk_read 1 10 20 false false 0, mk_read 2 10 20 false false 0]

def r_bad9 : Read := mk_read 9 10 20 false false 0
def r_un9 : Read := mk_read 3 0 5 false true 0
def r_un10 : Read := mk_read 2 0 5 false true 0

/-! ## Claim theorems -/

/-- C1: when a mate has Multimap Resolver count 0 (here mate2 has zero
alignments, count 0), the dispatcher takes the unpaired branch and the
Pair Classifier is never invoked; but the write call at line 270 passes
write_pe_reads its arguments swapped with respect to the definition at
line 207 (compare line 284), so instead of routing the records
record-for-record to the unpaired channel the call raises a runtime
type error before writing anything. -/
theorem C1_dispatcher_swapped_unpaired_write :
    count_transcriptome_multimaps proj_c1 [1] ([] : List Read) = .ok 0
  ∧ fragment_route proj_c1 [1] 10 ([read_c1], []) = .ok Route.unpaired_branch
  ∧ process_fragment proj_c1 [1] [(1, 1)] frlib 200 10 chans0 ([read_c1], []) =
      .error PyErr.typeError :=
  ⟨rfl, rfl, rfl⟩

/-- C2 counterexample: a same-reference pair of two forward reads under a
same-strand library is tagged CONCORDANT_TX, and negating the strand bit
of BOTH mates leaves the tag CONCORDANT_TX — the classification is not
flipped to DISCORDANT_STRAND_TX as the claim states. -/
theorem C2_counterexample_double_negation :
    result_pair_tags (classify_read_pairs ([rA2], [rB2]) 200 frlib [(5, 1)]) =
      some [(some DiscordantTag.CONCORDANT_TX, some DiscordantTag.CONCORDANT_TX)]
  ∧ result_pair_tags (classify_read_pairs
        ([negate_strand rA2], [negate_strand rB2]) 200 frlib [(5, 1)]) =
      some [(some DiscordantTag.CONCORDANT_TX, some DiscordantTag.CONCORDANT_TX)]
  ∧ ¬ result_pair_tags (classify_read_pairs
        ([negate_strand rA2], [negate_strand rB2]) 200 frlib [(5, 1)]) =
      some [(some DiscordantTag.DISCORDANT_STRAND_TX,
             some DiscordantTag.DISCORDANT_STRAND_TX)] :=
  ⟨rfl, rfl, by decide⟩

/-- C2 (amended): for a fixed library type expecting same-strand pairing,
negating the strand bit of exactly one mate of a same-reference candidate
pair flips the tag between CONCORDANT_TX and DISCORDANT_STRAND_TX, while
negating both mates leaves the tag unchanged; the last conjunct ties
tx_pair_tag to the pairing loop of the same-reference stage. -/
theorem C2_strand_flip_amended (r1 r2 : Read) :
    tx_pair_tag true (negate_strand r1) (negate_strand r2) = tx_pair_tag true r1 r2
  ∧ (tx_pair_tag true (negate_strand r1) r2 = DiscordantTag.CONCORDANT_TX ↔
      tx_pair_tag true r1 r2 = DiscordantTag.DISCORDANT_STRAND_TX)
  ∧ (tx_pair_tag true r1 (negate_strand r2) = DiscordantTag.CONCORDANT_TX ↔
      tx_pair_tag true r1 r2 = DiscordantTag.DISCORDANT_STRAND_TX)
  ∧ ((pairs_with_all true DiscordantTag.CONCORDANT_TX
        DiscordantTag.DISCORDANT_STRAND_TX r1 [r2]).1 ≠ [] ↔
      tx_pair_tag true r1 r2 = DiscordantTag.CONCORDANT_TX) := by
  cases h1 : r1.is_reverse <;> cases h2 : r2.is_reverse <;>
    simp [tx_pair_tag, negate_strand, pairs_with_all, h1, h2]

/-- C3 counterexample: on a fragment whose four classifier states all
produce nothing (two forward mates on different references and clusters,
so both are 5-prime and the cross-gene stage builds no
opposite-orientation combination), classify_read_pairs returns the empty
pair set with the SAME records as residual, but each residual record has
been tagged in place with DISCORDANT_GENE and an orientation tag — the
residual is not the untagged original. -/
theorem C3_counterexample_residual_tagged :
    classify_read_pairs ([rA3], [rB3]) 200 frlib [(1, 1), (2, 2)] =
      .ok ([], ([tag_read frlib rA3], [tag_read frlib rB3]))
  ∧ tag_read frlib rA3 ≠ rA3
  ∧ read_opt_discordant (tag_read frlib rA3) = some DiscordantTag.DISCORDANT_GENE
  ∧ read_opt_orientation (tag_read frlib rA3) = some Orientation.ORIENTATION_5P :=
  ⟨rfl, by decide, rfl, rfl⟩

/-- C3 (amended): whenever classify_read_pairs returns an empty pair set,
the residual consists of the fragment mate lists record-for-record,
each record annotated in place by the cross-gene stage with the
DISCORDANT_GENE tag and its orientation tag (lines 69-70); the mate
lists are otherwise unchanged. -/
theorem C3_terminal_residual_is_tagged (pe_reads : List Read × List Read)
    (max_isize : Nat) (library_type : LibraryType)
    (tid_tx_map : List (Nat × Nat)) (res : List Read × List Read)
    (h : classify_read_pairs pe_reads max_isize library_type tid_tx_map =
      .ok ([], res)) :
    res = (pe_reads.1.map (tag_read library_type),
           pe_reads.2.map (tag_read library_type)) := by
  unfold classify_read_pairs at h
  cases hm : map_reads_to_references pe_reads tid_tx_map with
  | error e => rw [hm] at h; exact absurd h (by simp)
  | ok dicts =>
    obtain ⟨rd, cd⟩ := dicts
    rw [hm] at h
    have hco : classify_pairs_core library_type rd cd pe_reads = ([], res) :=
      Except.ok.inj h
    rcases core_cases library_type rd cd pe_reads [] res hco with
      ⟨hne, _⟩ | ⟨_, hres⟩
    · exact absurd rfl hne
    · exact hres

/-- Witness for C3 (amended) at a concrete all-5-prime fragment. -/
theorem C3_witness :
    classify_read_pairs ([rA3w], [rB3w]) 150 frlib [(3, 3), (4, 4)] =
      .ok ([], res3w)
  ∧ res3w = (([rA3w]).map (tag_read frlib), ([rB3w]).map (tag_read frlib)) :=
  ⟨rfl, C3_terminal_residual_is_tagged ([rA3w], [rB3w]) 150 frlib
    [(3, 3), (4, 4)] res3w rfl⟩

/-- C4: if the same-reference stage generates at least one cross-product
candidate (a reference bucket holds alignments of both mates), then
found_pair is set, the cluster stage is never executed (its two produced
lists are empty and the classifier result does not depend on the cluster
dictionary), and the fragment resolves to reference-level pairs. -/
theorem C4_reference_level_blocks_cluster_stage
    (pe_reads : List Read × List Read) (max_isize : Nat)
    (library_type : LibraryType) (tid_tx_map : List (Nat × Nat))
    (rd cd : RefDict) (k : Nat) (l1 l2 : List Read)
    (hmap : map_reads_to_references pe_reads tid_tx_map = .ok (rd, cd))
    (hmem : (k, (l1, l2)) ∈ rd) (h1 : l1 ≠ []) (h2 : l2 ≠ []) :
    (ref_stage library_type.same_strand rd).1 = true
  ∧ (produced_pair_lists library_type rd cd).2.1 = []
  ∧ (produced_pair_lists library_type rd cd).2.2.2 = []
  ∧ classify_pairs_core library_type rd cd pe_reads =
      classify_pairs_core library_type rd [] pe_reads
  ∧ ((produced_pair_lists library_type rd cd).1 ≠ [] ∧
       classify_read_pairs pe_reads max_isize library_type tid_tx_map =
         .ok ((produced_pair_lists library_type rd cd).1, ([], []))
     ∨ (produced_pair_lists library_type rd cd).1 = [] ∧
       (produced_pair_lists library_type rd cd).2.2.1 ≠ [] ∧
       classify_read_pairs pe_reads max_isize library_type tid_tx_map =
         .ok ((produced_pair_lists library_type rd cd).2.2.1, ([], []))) := by
  have hfound := ref_stage_found library_type.same_strand rd k l1 l2 hmem h1 h2
  have hccl : (produced_pair_lists library_type rd cd).2.1 = [] := by
    simp [produced_pair_lists, hfound]
  have hdcl : (produced_pair_lists library_type rd cd).2.2.2 = [] := by
    simp [produced_pair_lists, hfound]
  have hindep : classify_pairs_core library_type rd cd pe_reads =
      classify_pairs_core library_type rd [] pe_reads := by
    simp [classify_pairs_core, produced_pair_lists, hfound]
  have hcl2 : classify_read_pairs pe_reads max_isize library_type tid_tx_map =
      .ok (classify_pairs_core library_type rd cd pe_reads) := by
    unfold classify_read_pairs
    rw [hmap]
  refine ⟨hfound, hccl, hdcl, hindep, ?_⟩
  by_cases hctx : (produced_pair_lists library_type rd cd).1 = []
  · right
    have hdtx : (produced_pair_lists library_type rd cd).2.2.1 ≠ [] := by
      rcases ref_stage_pairs_ne library_type.same_strand rd hfound with hne | hne
      · exact absurd hctx hne
      · exact hne
    refine ⟨hctx, hdtx, ?_⟩
    rw [hcl2, core_sel_dtx library_type rd cd pe_reads hctx hccl hdtx]
  · left
    exact ⟨hctx, by rw [hcl2, core_sel_ctx library_type rd cd pe_reads hctx]⟩

/-- Witness for C4 at a fragment whose two mates share reference 7. -/
theorem C4_witness :
    (ref_stage frlib.same_strand rd4).1 = true
  ∧ classify_read_pairs ([rA4], [rB4]) 200 frlib [(7, 1)] =
      .ok ((produced_pair_lists frlib rd4 cd4).1, ([], [])) := by
  have h := C4_reference_level_blocks_cluster_stage ([rA4], [rB4]) 200 frlib
    [(7, 1)] rd4 cd4 7 [rA4] [rB4] rfl (by decide) (by decide) (by decide)
  rcases h.2.2.2.2 with ⟨_, hcl⟩ | ⟨hctx, _, _⟩
  · exact ⟨h.1, hcl⟩
  · exact absurd hctx (by decide)

/-- C5: among the produced candidate lists the classifier returns, with an
empty residual, the whole first non-empty list in the priority order
CONCORDANT_TX, CONCORDANT_GENE, DISCORDANT_STRAND_TX,
DISCORDANT_STRAND_GENE (lines 170-188). -/
theorem C5_selection_priority (pe_reads : List Read × List Read)
    (max_isize : Nat) (library_type : LibraryType)
    (tid_tx_map : List (Nat × Nat)) (rd cd : RefDict)
    (hmap : map_reads_to_references pe_reads tid_tx_map = .ok (rd, cd)) :
    ((produced_pair_lists library_type rd cd).1 ≠ [] →
      classify_read_pairs pe_reads max_isize library_type tid_tx_map =
        .ok ((produced_pair_lists library_type rd cd).1, ([], [])))
  ∧ ((produced_pair_lists library_type rd cd).1 = [] →
      (produced_pair_lists library_type rd cd).2.1 ≠ [] →
      classify_read_pairs pe_reads max_isize library_type tid_tx_map =
        .ok ((produced_pair_lists library_type rd cd).2.1, ([], [])))
  ∧ ((produced_pair_lists library_type rd cd).1 = [] →
      (produced_pair_lists library_type rd cd).2.1 = [] →
      (produced_pair_lists library_type rd cd).2.2.1 ≠ [] →
      classify_read_pairs pe_reads max_isize library_type tid_tx_map =
        .ok ((produced_pair_lists library_type rd cd).2.2.1, ([], [])))
  ∧ ((produced_pair_lists library_type rd cd).1 = [] →
      (produced_pair_lists library_type rd cd).2.1 = [] →
      (produced_pair_lists library_type rd cd).2.2.1 = [] →
      (produced_pair_lists library_type rd cd).2.2.2 ≠ [] →
      classify_read_pairs pe_reads max_isize library_type tid_tx_map =
        .ok ((produced_pair_lists library_type rd cd).2.2.2, ([], []))) := by
  have hcl2 : classify_read_pairs pe_reads max_isize library_type tid_tx_map =
      .ok (classify_pairs_core library_type rd cd pe_reads) := by
    unfold classify_read_pairs
    rw [hmap]
  refine ⟨fun h => ?_, fun hctx h => ?_, fun hctx hccl h => ?_,
    fun hctx hccl hdtx h => ?_⟩
  · rw [hcl2, core_sel_ctx library_type rd cd pe_reads h]
  · rw [hcl2, core_sel_ccl library_type rd cd pe_reads hctx h]
  · rw [hcl2, core_sel_dtx library_type rd cd pe_reads hctx hccl h]
  · rw [hcl2, core_sel_dcl library_type rd cd pe_reads hctx hccl hdtx h]

/-- Witness for C5: the CONCORDANT_TX list is selected first. -/
theorem C5_witness :
    classify_read_pairs ([rA4], [rB4]) 300 frlib [(7, 1)] =
      .ok ((produced_pair_lists frlib rd4 cd4).1, ([], [])) :=
  (C5_selection_priority ([rA4], [rB4]) 300 frlib [(7, 1)] rd4 cd4 rfl).1
    (by decide)

/-- C6: the Multimap Resolver returns 0 on an empty alignment list, and
on a list of mapped records whose reference ids all have genome
projections it returns the number of DISTINCT locus keys
(genome reference of the projected start, projected start position,
projected end-1 position) — alignments to different transcripts that
project to the same genomic interval count once. -/
theorem C6_multimap_distinct_locus_count (proj : GenomeProj) (dom : List Nat) :
    count_transcriptome_multimaps proj dom [] = .ok 0
  ∧ ∀ reads : List Read, (∀ r ∈ reads, r.is_unmapped = false) →
      (∀ r ∈ reads, r.tid ∈ dom) →
      count_transcriptome_multimaps proj dom reads =
        .ok ((reads.map (locus_key proj)).toFinset.card) := by
  refine ⟨rfl, fun reads hm hd => ?_⟩
  have h := count_hits_card proj dom reads [] List.nodup_nil hm hd
  simpa [count_transcriptome_multimaps] using h

/-- Witness for C6: two alignments to transcripts 1 and 2 projecting to
the identical genomic interval count as one locus. -/
theorem C6_witness :
    count_transcriptome_multimaps projC6 [1, 2] readsC6 =
      .ok ((readsC6.map (locus_key projC6)).toFinset.card)
  ∧ (readsC6.map (locus_key projC6)).toFinset.card = 1 :=
  ⟨(C6_multimap_distinct_locus_count projC6 [1, 2]).2 readsC6
      (by decide) (by decide), by decide⟩

/-- C7: when states 1-3 produce nothing and the cross-gene stage yields a
non-empty candidate set, the classifier returns exactly the output of
the external best-scoring-pair selector applied to that set, with no
residual, and every returned pair joins records of opposite orientation,
both tagged DISCORDANT_GENE — no same-orientation pair is ever
returned. -/
theorem C7_cross_gene_opposite_orientation (pe_reads : List Read × List Read)
    (max_isize : Nat) (library_type : LibraryType)
    (tid_tx_map : List (Nat × Nat)) (rd cd : RefDict)
    (hclean1 : ∀ r ∈ pe_reads.1, clean_tags r)
    (hclean2 : ∀ r ∈ pe_reads.2, clean_tags r)
    (hmap : map_reads_to_references pe_reads tid_tx_map = .ok (rd, cd))
    (href : ref_stage library_type.same_strand rd = (false, [], []))
    (hcl : cluster_stage library_type.same_strand cd = ([], []))
    (hne : (find_discordant_pairs pe_reads library_type).1 ≠ []) :
    classify_read_pairs pe_reads max_isize library_type tid_tx_map =
      .ok (select_best_scoring_pairs
        (find_discordant_pairs pe_reads library_type).1, ([], []))
  ∧ ∀ p ∈ select_best_scoring_pairs
      (find_discordant_pairs pe_reads library_type).1,
      read_opt_discordant p.1 = some DiscordantTag.DISCORDANT_GENE
    ∧ read_opt_discordant p.2 = some DiscordantTag.DISCORDANT_GENE
    ∧ ((read_opt_orientation p.1 = some Orientation.ORIENTATION_5P ∧
        read_opt_orientation p.2 = some Orientation.ORIENTATION_3P) ∨
       (read_opt_orientation p.1 = some Orientation.ORIENTATION_3P ∧
        read_opt_orientation p.2 = some Orientation.ORIENTATION_5P)) := by
  have hctx : (produced_pair_lists library_type rd cd).1 = [] := by
    simp [produced_pair_lists, href]
  have hdtx : (produced_pair_lists library_type rd cd).2.2.1 = [] := by
    simp [produced_pair_lists, href]
  have hccl : (produced_pair_lists library_type rd cd).2.1 = [] := by
    simp [produced_pair_lists, href, hcl]
  have hdcl : (produced_pair_lists library_type rd cd).2.2.2 = [] := by
    simp [produced_pair_lists, href, hcl]
  constructor
  · unfold classify_read_pairs
    rw [hmap]
    show Except.ok (classify_pairs_core library_type rd cd pe_reads) = _
    rw [core_state4_found library_type rd cd pe_reads hctx hccl hdtx hdcl hne]
  · intro p hp
    have hpf := select_best_scoring_pairs_subset _ p hp
    obtain ⟨r, s, hr, hs, hpeq, hor⟩ :=
      find_discordant_pairs_mem pe_reads library_type p hpf
    have hcr := hclean1 r hr
    have hcs := hclean2 s hs
    have hp1 : p.1 = tag_read library_type r := by rw [hpeq]
    have hp2 : p.2 = tag_read library_type s := by rw [hpeq]
    refine ⟨?_, ?_, ?_⟩
    · rw [hp1]; exact read_opt_discordant_tag_read library_type r hcr
    · rw [hp2]; exact read_opt_discordant_tag_read library_type s hcs
    · rcases hor with ⟨h5, h3⟩ | ⟨h3, h5⟩
      · exact Or.inl
          ⟨by rw [hp1, read_opt_orientation_tag_read library_type r hcr, h5],
           by rw [hp2, read_opt_orientation_tag_read library_type s hcs, h3]⟩
      · exact Or.inr
          ⟨by rw [hp1, read_opt_orientation_tag_read library_type r hcr, h3],
           by rw [hp2, read_opt_orientation_tag_read library_type s hcs, h5]⟩

/-- Witness for C7 at a fragment with a 5-prime mate1 on reference 11 and
a 3-prime mate2 on reference 12 (different clusters). -/
theorem C7_witness :
    classify_read_pairs ([rA7], [rB7]) 200 frlib [(11, 1), (12, 2)] =
      .ok (select_best_scoring_pairs
        (find_discordant_pairs ([rA7], [rB7]) frlib).1, ([], []))
  ∧ ∀ p ∈ select_best_scoring_pairs
      (find_discordant_pairs ([rA7], [rB7]) frlib).1,
      read_opt_discordant p.1 = some DiscordantTag.DISCORDANT_GENE
    ∧ read_opt_discordant p.2 = some DiscordantTag.DISCORDANT_GENE
    ∧ ((read_opt_orientation p.1 = some Orientation.ORIENTATION_5P ∧
        read_opt_orientation p.2 = some Orientation.ORIENTATION_3P) ∨
       (read_opt_orientation p.1 = some Orientation.ORIENTATION_3P ∧
        read_opt_orientation p.2 = some Orientation.ORIENTATION_5P)) :=
  C7_cross_gene_opposite_orientation ([rA7], [rB7]) 200 frlib
    [(11, 1), (12, 2)] rd7 cd7 (by decide) (by decide) rfl rfl rfl (by decide)

/-- C8 counterexample: on a fragment with one alignment per mate on
unrelated references the classifier returns the empty pair list, and the
residual is NOT equal to the original mate lists (the records were
tagged by the cross-gene stage), so neither arm of the claimed
alternative holds as stated. -/
theorem C8_counterexample_residual_not_original :
    ([rA8] : List Read) ≠ [] ∧ ([rB8] : List Read) ≠ []
  ∧ classify_read_pairs ([rA8], [rB8]) 200 frlib [(21, 5), (22, 6)] =
      .ok ([], ([tag_read frlib rA8], [tag_read frlib rB8]))
  ∧ ([tag_read frlib rA8], [tag_read frlib rB8]) ≠
      (([rA8] : List Read), ([rB8] : List Read)) :=
  ⟨by decide, by decide, rfl, by decide⟩

/-- C8 (amended): every classifier result is exactly one of: a non-empty
pair list with an empty residual, or an empty pair list whose residual
is the fragment mate lists record-for-record with the cross-gene tags
appended; the two outputs are never both non-empty, and never both empty
when each mate list holds at least one alignment. -/
theorem C8_output_mutually_exclusive (pe_reads : List Read × List Read)
    (max_isize : Nat) (library_type : LibraryType)
    (tid_tx_map : List (Nat × Nat)) (pairs : List ReadPair)
    (res : List Read × List Read)
    (h : classify_read_pairs pe_reads max_isize library_type tid_tx_map =
      .ok (pairs, res)) :
    ((pairs ≠ [] ∧ res = ([], [])) ∨
      (pairs = [] ∧ res = (pe_reads.1.map (tag_read library_type),
                           pe_reads.2.map (tag_read library_type))))
  ∧ (pairs ≠ [] → res = ([], []))
  ∧ (pe_reads.1 ≠ [] → pe_reads.2 ≠ [] →
      ¬(pairs = [] ∧ res.1 = [] ∧ res.2 = [])) := by
  have hdisj : (pairs ≠ [] ∧ res = ([], [])) ∨
      (pairs = [] ∧ res = (pe_reads.1.map (tag_read library_type),
                           pe_reads.2.map (tag_read library_type))) := by
    unfold classify_read_pairs at h
    cases hm : map_reads_to_references pe_reads tid_tx_map with
    | error e => rw [hm] at h; exact absurd h (by simp)
    | ok dicts =>
      obtain ⟨rd, cd⟩ := dicts
      rw [hm] at h
      exact core_cases library_type rd cd pe_reads pairs res (Except.ok.inj h)
  refine ⟨hdisj, fun hp => ?_, fun h1 h2 hc => ?_⟩
  · rcases hdisj with ⟨_, hres⟩ | ⟨hnil, _⟩
    · exact hres
    · exact absurd hnil hp
  · obtain ⟨hp, hr1, -⟩ := hc
    rcases hdisj with ⟨hne, _⟩ | ⟨-, hres⟩
    · exact hne hp
    · have : res.1 = pe_reads.1.map (tag_read library_type) := by rw [hres]
      rw [this] at hr1
      exact h1 (List.map_eq_nil_iff.mp hr1)

/-- Witness for C8 (amended) at a concordant fragment. -/
theorem C8_witness :
    c8w_pairs ≠ [] ∧ (([], []) : List Read × List Read) = ([], []) := by
  rcases (C8_output_mutually_exclusive ([rA4], [rB4]) 200 frlib [(7, 1)]
      c8w_pairs ([], []) rfl).1 with h | h
  · exact h
  · exact absurd h.1 (by decide)

/-- C9 counterexample: a mapped record whose reference id is absent from
the lookup table is silently ignored by the multimap counter when an
unmapped record precedes it in the list — the unmapped short-circuit at
line 26 returns 0 before the assert at line 28 is reached. -/
theorem C9_counterexample_silent_skip :
    r_bad9.is_unmapped = false ∧ r_bad9.tid ∉ ([1] : List Nat)
  ∧ count_transcriptome_multimaps proj_c1 [1] [r_un9, r_bad9] = .ok 0 :=
  ⟨rfl, by decide, rfl⟩

/-- C9 (amended): in the binner every mapped record with a reference id
absent from tid_tx_map aborts with the assertion error; in the multimap
counter the assertion aborts whenever every record of the list is
mapped and some reference id is absent (an unmapped record instead
short-circuits the count to 0 before later records are examined); when
every needed reference id is present the assertion branch is unreachable
and both functions succeed. -/
theorem C9_missing_reference_aborts :
    (∀ (pe_reads : List Read × List Read) (tid_tx_map : List (Nat × Nat)),
      (∃ r, (r ∈ pe_reads.1 ∨ r ∈ pe_reads.2) ∧ r.is_unmapped = false ∧
        tid_tx_map.lookup r.tid = none) →
      map_reads_to_references pe_reads tid_tx_map =
        .error PyErr.assertionError)
  ∧ (∀ (proj : GenomeProj) (dom : List Nat) (reads : List Read),
      (∀ r ∈ reads, r.is_unmapped = false) → (∃ r ∈ reads, r.tid ∉ dom) →
      count_transcriptome_multimaps proj dom reads =
        .error PyErr.assertionError)
  ∧ (∀ (pe_reads : List Read × List Read) (tid_tx_map : List (Nat × Nat)),
      (∀ r ∈ pe_reads.1, r.is_unmapped = false →
        (tid_tx_map.lookup r.tid).isSome = true) →
      (∀ r ∈ pe_reads.2, r.is_unmapped = false →
        (tid_tx_map.lookup r.tid).isSome = true) →
      ∃ d, map_reads_to_references pe_reads tid_tx_map = .ok d)
  ∧ (∀ (proj : GenomeProj) (dom : List Nat) (reads : List Read),
      (∀ r ∈ reads, r.is_unmapped = false → r.tid ∈ dom) →
      ∃ n, count_transcriptome_multimaps proj dom reads = .ok n) :=
  ⟨fun pe t h => map_reads_err pe t h,
   fun proj dom reads hm hex => count_hits_err proj dom reads [] hm hex,
   fun pe t h1 h2 => map_reads_ok pe t h1 h2,
   fun proj dom reads hm => count_hits_ok proj dom reads [] hm⟩

/-- Witness for C9 (amended): the binner and the counter abort on a
missing reference id, and succeed when every reference id is present. -/
theorem C9_witness :
    map_reads_to_references ([r_bad9], []) [] = .error PyErr.assertionError
  ∧ count_transcriptome_multimaps proj_c1 [1]
      [mk_read 1 0 5 false false 0, r_bad9] = .error PyErr.assertionError
  ∧ (∃ d, map_reads_to_references ([read_c1], [read_c1]) [(1, 1)] = .ok d)
  ∧ (∃ n, count_transcriptome_multimaps proj_c1 [1] [read_c1] = .ok n) :=
  ⟨C9_missing_reference_aborts.1 ([r_bad9], []) []
      ⟨r_bad9, Or.inl (List.mem_singleton_self _), rfl, rfl⟩,
   C9_missing_reference_aborts.2.1 proj_c1 [1] _ (by decide)
      ⟨r_bad9, by decide, by decide⟩,
   C9_missing_reference_aborts.2.2.1 ([read_c1], [read_c1]) [(1, 1)]
      (by decide) (by decide),
   C9_missing_reference_aborts.2.2.2 proj_c1 [1] [read_c1] (by decide)⟩

/-- C10: the multimap counter returns 0 as soon as any record of the
list is unmapped (so a count of 0 is not exclusive to an empty list),
and a fragment with such a mate takes the dispatcher unpaired branch,
never the classify branch. -/
theorem C10_unmapped_short_circuit (proj : GenomeProj) (dom : List Nat)
    (max_multihits : Nat) :
    (∀ reads : List Read,
      (∀ r ∈ reads, r.is_unmapped = false → r.tid ∈ dom) →
      (∃ r ∈ reads, r.is_unmapped = true) →
      count_transcriptome_multimaps proj dom reads = .ok 0)
  ∧ (∀ pe_reads : List Read × List Read,
      (∀ r ∈ pe_reads.1, r.is_unmapped = false → r.tid ∈ dom) →
      (∀ r ∈ pe_reads.2, r.is_unmapped = false → r.tid ∈ dom) →
      ((∃ r ∈ pe_reads.1, r.is_unmapped = true) ∨
       (∃ r ∈ pe_reads.2, r.is_unmapped = true)) →
      fragment_route proj dom max_multihits pe_reads =
        .ok Route.unpaired_branch) := by
  constructor
  · exact fun reads hm hex => count_hits_unmapped_zero proj dom reads [] hm hex
  · intro pe hm1 hm2 hex
    rcases hex with hex | hex
    · have hc1 : count_transcriptome_multimaps proj dom pe.1 = .ok 0 :=
        count_hits_unmapped_zero proj dom pe.1 [] hm1 hex
      obtain ⟨n, hc2⟩ := count_hits_ok proj dom pe.2 [] hm2
      have hc2' : count_transcriptome_multimaps proj dom pe.2 = .ok n := hc2
      unfold fragment_route
      rw [hc1, hc2']
      show Except.ok (dispatch_route 0 n max_multihits) = _
      simp [dispatch_route, Nat.zero_min]
    · obtain ⟨n, hc1⟩ := count_hits_ok proj dom pe.1 [] hm1
      have hc1' : count_transcriptome_multimaps proj dom pe.1 = .ok n := hc1
      have hc2 : count_transcriptome_multimaps proj dom pe.2 = .ok 0 :=
        count_hits_unmapped_zero proj dom pe.2 [] hm2 hex
      unfold fragment_route
      rw [hc1', hc2]
      show Except.ok (dispatch_route n 0 max_multihits) = _
      simp [dispatch_route, Nat.min_zero]

/-- Witness for C10: a non-empty mate list containing an unmapped record
counts 0, and the fragment takes the unpaired branch. -/
theorem C10_witness :
    count_transcriptome_multimaps proj_c1 [1] [read_c1, r_un10] = .ok 0
  ∧ ([read_c1, r_un10] : List Read) ≠ []
  ∧ fragment_route proj_c1 [1] 10 ([read_c1], [r_un10]) =
      .ok Route.unpaired_branch :=
  ⟨(C10_unmapped_short_circuit proj_c1 [1] 10).1 [read_c1, r_un10]
      (by decide) ⟨r_un10, by decide, rfl⟩,
   by decide,
   (C10_unmapped_short_circuit proj_c1 [1] 10).2 ([read_c1], [r_un10])
      (by decide) (by decide) (Or.inr ⟨r_un10, by decide, rfl⟩)⟩

end Chimerascan
